import Mathlib

/-!
Verification of the AcmGENTIC evidence-aggregation core.

This file gives a shallow embedding, in Lean, of the pure core of the
pipeline: the variant-identity model and its search-identifier derivation
(`src/utils.py`), the VEP enrichment procedure (`src/utils.py`), and the
PS3/BS3 evidence-integration engine (`src/assessment.py`).  Each Lean
definition is a direct transcription of the corresponding Python function;
optional dataclass fields become `Option String`, Python truthiness of an
optional string becomes `truthy`, list comprehensions become `List.filter`,
`sorted({...})` becomes `insertionSort` after `dedup`, and the in-place
mutation performed by `enrich_with_vep` is modelled by returning the
post-state of its first argument together with the function's (always
`None`) return value.
-/

/-- Python truthiness of an optional string: `None` and `""` are falsy,
every non-empty string is truthy. -/
def truthy (o : Option String) : Bool := o.getD "" != ""

/-- Embedding of the `VariantInfo` dataclass from `src/utils.py`. -/
structure VariantInfo where
  chrom : String
  pos : Int
  ref : String
  alt : String
  rsid : Option String := none
  hgvsc : Option String := none
  hgvsp : Option String := none
  gene_symbol : Option String := none
  ensembl_transcript : Option String := none
  mane_transcript : Option String := none
deriving DecidableEq

/-- The genomic search string `f"{chrom}:{pos}{ref}>{alt}"` built at the top
of `VariantInfo.search_strings`. -/
def genomic_str (vi : VariantInfo) : String :=
  vi.chrom ++ ":" ++ toString vi.pos ++ vi.ref ++ ">" ++ vi.alt

/-- Embedding of `VariantInfo.search_strings` from `src/utils.py`:
collect the genomic string, `rsid`, `hgvsc`, `hgvsp`, and the
`gene_symbol`+`hgvsp` / `gene_symbol`+`hgvsc` combinations (when both parts
are truthy), drop falsy entries, and return the deduplicated candidates
sorted lexicographically (`sorted({c for c in candidates if c})`). -/
def VariantInfo.search_strings (vi : VariantInfo) : List String :=
  let candidates : List (Option String) :=
    [some (genomic_str vi), vi.rsid, vi.hgvsc, vi.hgvsp]
    ++ (if truthy vi.gene_symbol && truthy vi.hgvsp then
          [some (vi.gene_symbol.getD "" ++ " " ++ vi.hgvsp.getD "")] else [])
    ++ (if truthy vi.gene_symbol && truthy vi.hgvsc then
          [some (vi.gene_symbol.getD "" ++ " " ++ vi.hgvsc.getD "")] else [])
  (((candidates.filterMap id).filter (fun c => c != "")).dedup).insertionSort
    (fun a b => a ≤ b)

/-- Embedding of the optional VEP annotation dictionary consumed by
`enrich_with_vep` in `src/utils.py`: each key either holds a string or is
missing/`None`. -/
structure VepInfo where
  rsid : Option String := none
  gene_symbol : Option String := none
  hgvsc : Option String := none
  hgvsp : Option String := none
  ensembl_transcript : Option String := none
  mane_transcript : Option String := none
deriving DecidableEq

/-- Embedding of `enrich_with_vep` from `src/utils.py`.  The Python function
updates `vi` in place and returns `None`; we model it as mapping the
pre-state of `vi` to the pair (return value, post-state of `vi`).  The first
component is the Python return value, lifted to `Option VariantInfo` so that
the absence of a returned identity is expressible: it is always `none`.
An absent or empty (falsy) `vep_info` dictionary is modelled by `none` and
causes the early `return`. -/
def enrich_with_vep (vi : VariantInfo) (vep_info : Option VepInfo) :
    Option VariantInfo × VariantInfo :=
  match vep_info with
  | none => (none, vi)
  | some v =>
    let vi := if truthy v.rsid && !(truthy vi.rsid) then
      { vi with rsid := v.rsid } else vi
    let vi := if truthy v.gene_symbol && !(truthy vi.gene_symbol) then
      { vi with gene_symbol := v.gene_symbol } else vi
    let vi := if truthy v.hgvsc then { vi with hgvsc := v.hgvsc } else vi
    let vi := if truthy v.hgvsp then { vi with hgvsp := v.hgvsp } else vi
    let vi := if truthy v.ensembl_transcript then
      { vi with ensembl_transcript := v.ensembl_transcript } else vi
    let vi := if truthy v.mane_transcript then
      { vi with mane_transcript := v.mane_transcript } else vi
    (none, vi)

/-- Embedding of the `FunctionalExperiment` dataclass from `src/utils.py`. -/
structure FunctionalExperiment where
  pmid : String
  assay_type : String
  system : String
  readout : String
  effect_direction : String
  magnitude_stats : String
  controls_validity : String
  authors_conclusion : String
  evaluation : String
deriving DecidableEq

/-- Embedding of the `IntegratedAssessment` dataclass from `src/utils.py`. -/
@[ext]
structure IntegratedAssessment where
  decision : String
  narrative : String
  strength : Option String := none
  key_pmids : Option (List String) := none
deriving DecidableEq

/-- The per-experiment quality test used by `high_quality` in
`src/assessment.py`: `len(e.controls_validity) > 40`. -/
def is_high_confidence (e : FunctionalExperiment) : Bool :=
  decide (40 < e.controls_validity.length)

/-- Embedding of the nested `high_quality` helper of `integrate_evidence` in
`src/assessment.py`. -/
def high_quality (exps : List FunctionalExperiment) : List FunctionalExperiment :=
  exps.filter is_high_confidence

/-- Number of distinct PMIDs in a list of experiments:
`len({e.pmid for e in exps})`. -/
def distinct_pmids (exps : List FunctionalExperiment) : Nat :=
  ((exps.map (fun e => e.pmid)).dedup).length

/-- The `pathogenic_support` partition of `integrate_evidence`. -/
def pathogenic_support (exps : List FunctionalExperiment) : List FunctionalExperiment :=
  exps.filter (fun e => e.evaluation == "supports_pathogenic")

/-- The `benign_support` partition of `integrate_evidence`. -/
def benign_support (exps : List FunctionalExperiment) : List FunctionalExperiment :=
  exps.filter (fun e => e.evaluation == "supports_benign")

/-- The `if/elif/else` chain of `integrate_evidence` assigning `decision`
and `strength` from the two high-quality partitions. -/
def decision_strength (high_q_path high_q_benign : List FunctionalExperiment) :
    String × Option String :=
  if 2 ≤ distinct_pmids high_q_path ∧ high_q_benign = [] then ("PS3", some "strong")
  else if 2 ≤ distinct_pmids high_q_benign ∧ high_q_path = [] then ("BS3", some "strong")
  else if high_q_path ≠ [] ∧ high_q_benign = [] then ("PS3", some "supporting")
  else if high_q_benign ≠ [] ∧ high_q_path = [] then ("BS3", some "supporting")
  else ("none", none)

/-- Embedding of Python's `" ".join(parts)`. -/
def join_space : List String → String
  | [] => ""
  | [s] => s
  | s :: rest => s ++ " " ++ join_space rest

/-- The fixed narrative emitted by `integrate_evidence` for an empty
experiment list. -/
def no_evidence_narrative : String :=
  "No functional experiments directly testing this variant were identified in the retrieved literature. Therefore, PS3 and BS3 are not applied."

/-- The narrative-assembly portion of `integrate_evidence` in
`src/assessment.py`: one clause per non-empty partition, a fallback clause
when both partitions are empty, and a closing clause keyed on the decision,
joined by spaces. -/
def build_narrative (experiments : List FunctionalExperiment)
    (decision : String) (strength : Option String) : String :=
  if experiments = [] then no_evidence_narrative
  else
    let path := pathogenic_support experiments
    let ben := benign_support experiments
    let parts : List String := []
    let parts := if path ≠ [] then
      parts ++ [toString path.length ++ " experiment(s) across " ++
        toString (distinct_pmids path) ++
        " paper(s) reported impaired or abnormal function consistent with a damaging effect."]
      else parts
    let parts := if ben ≠ [] then
      parts ++ [toString ben.length ++ " experiment(s) across " ++
        toString (distinct_pmids ben) ++
        " paper(s) reported normal or near-normal function, consistent with a benign effect."]
      else parts
    let parts := if path = [] ∧ ben = [] then
      parts ++ ["All experiments were judged ambiguous or low-quality."] else parts
    let closing :=
      if decision = "PS3" then
        "Taken together, these studies provide functional evidence supporting a damaging effect on the gene product, compatible with application of PS3 (" ++ strength.getD "" ++ " strength)."
      else if decision = "BS3" then
        "Taken together, these studies provide functional evidence supporting a non-damaging effect on the gene product, compatible with application of BS3 (" ++ strength.getD "" ++ " strength)."
      else
        "However, the overall body of functional evidence is insufficient or conflicting to confidently apply PS3 or BS3."
    join_space (parts ++ [closing])

/-- Embedding of `integrate_evidence` from `src/assessment.py`. -/
def integrate_evidence (experiments : List FunctionalExperiment) :
    IntegratedAssessment :=
  let high_q_path := high_quality (pathogenic_support experiments)
  let high_q_benign := high_quality (benign_support experiments)
  let key_pmids :=
    ((experiments.map (fun e => e.pmid)).dedup).insertionSort (fun a b => a ≤ b)
  let ds := decision_strength high_q_path high_q_benign
  { decision := ds.1
    narrative := build_narrative experiments ds.1 ds.2
    strength := ds.2
    key_pmids := some key_pmids }

/-- Concrete pathogenic-support experiment (69-character `controls_validity`)
used by witnesses. -/
def expPathA : FunctionalExperiment :=
  { pmid := "11111111", assay_type := "reporter assay", system := "HEK293 cells",
    readout := "transcriptional activity",
    effect_direction := "strong_loss_of_function", magnitude_stats := "12% of wild-type",
    controls_validity := "wild-type and empty-vector controls with three biological replicates",
    authors_conclusion := "variant abolishes function", evaluation := "supports_pathogenic" }

/-- A second pathogenic-support experiment from a distinct paper. -/
def expPathB : FunctionalExperiment := { expPathA with pmid := "22222222" }

/-- A benign-support experiment from a third paper. -/
def expBenignC : FunctionalExperiment :=
  { expPathA with pmid := "33333333", evaluation := "supports_benign",
                  effect_direction := "no_effect_vs_wildtype" }

/-- Characterization of the post-state of `enrich_with_vep` on a present
annotation: the four coordinate fields are untouched, `rsid` and
`gene_symbol` are filled only when currently falsy, and `hgvsc`, `hgvsp`,
`ensembl_transcript`, `mane_transcript` are overwritten whenever the
annotation's value is truthy. -/
theorem enrich_with_vep_some_eq (vi : VariantInfo) (v : VepInfo) :
    (enrich_with_vep vi (some v)).2 =
      { chrom := vi.chrom, pos := vi.pos, ref := vi.ref, alt := vi.alt,
        rsid := if truthy v.rsid && !(truthy vi.rsid) then v.rsid else vi.rsid,
        gene_symbol := if truthy v.gene_symbol && !(truthy vi.gene_symbol) then
          v.gene_symbol else vi.gene_symbol,
        hgvsc := if truthy v.hgvsc then v.hgvsc else vi.hgvsc,
        hgvsp := if truthy v.hgvsp then v.hgvsp else vi.hgvsp,
        ensembl_transcript := if truthy v.ensembl_transcript then
          v.ensembl_transcript else vi.ensembl_transcript,
        mane_transcript := if truthy v.mane_transcript then
          v.mane_transcript else vi.mane_transcript } := by
  simp only [enrich_with_vep]
  split_ifs <;> rfl

/-- Claim C2: `integrate_evidence` is a total Lean function (totality is
enforced by the definition itself), and on the empty experiment list it
returns decision `"none"`, no strength, empty `key_pmids`, and the fixed
no-evidence narrative sentence. -/
theorem integrate_evidence_empty :
    integrate_evidence [] =
      { decision := "none",
        narrative := "No functional experiments directly testing this variant were identified in the retrieved literature. Therefore, PS3 and BS3 are not applied.",
        strength := none,
        key_pmids := some [] } := by
  rfl

/-- Claim C8: the quality filter accepts an experiment iff the character
length of its `controls_validity` text strictly exceeds 40 (length exactly
40 fails), membership in `high_quality` is exactly membership in the input
plus this length test, and the predicate is monotone in the text length. -/
theorem is_high_confidence_spec (e e2 : FunctionalExperiment) :
    (is_high_confidence e = true ↔ 40 < e.controls_validity.length) ∧
    (e.controls_validity.length = 40 → is_high_confidence e = false) ∧
    (e.controls_validity.length ≤ e2.controls_validity.length →
      is_high_confidence e = true → is_high_confidence e2 = true) ∧
    (∀ exps : List FunctionalExperiment,
      e ∈ high_quality exps ↔ e ∈ exps ∧ 40 < e.controls_validity.length) := by
  refine ⟨by simp [is_high_confidence], ?_, ?_, ?_⟩
  · intro h
    simp [is_high_confidence, h]
  · intro hle h
    simp only [is_high_confidence, decide_eq_true_eq] at h ⊢
    omega
  · intro exps
    simp [high_quality, List.mem_filter, is_high_confidence]

/-- Witness for C8: a 46-character `controls_validity` passes the filter, by
monotonicity from a 41-character one. -/
theorem is_high_confidence_spec_witness :
    is_high_confidence
      { pmid := "2", assay_type := "", system := "", readout := "",
        effect_direction := "", magnitude_stats := "",
        controls_validity := "matched wild-type controls, three replicates u",
        authors_conclusion := "", evaluation := "supports_pathogenic" } = true := by
  exact (is_high_confidence_spec
    { pmid := "1", assay_type := "", system := "", readout := "",
      effect_direction := "", magnitude_stats := "",
      controls_validity := "matched wild-type controls, three replicate",
      authors_conclusion := "", evaluation := "supports_pathogenic" }
    { pmid := "2", assay_type := "", system := "", readout := "",
      effect_direction := "", magnitude_stats := "",
      controls_validity := "matched wild-type controls, three replicates u",
      authors_conclusion := "", evaluation := "supports_pathogenic" }).2.2.1
    (by decide) (by decide)

/-- Claim C9: the coordinate fields `chrom`, `pos`, `ref`, `alt` of a
`VariantInfo` are never changed by `enrich_with_vep`, whatever the
annotation. -/
theorem enrich_preserves_identity_key (vi : VariantInfo) (vep_info : Option VepInfo) :
    ((enrich_with_vep vi vep_info).2).chrom = vi.chrom ∧
    ((enrich_with_vep vi vep_info).2).pos = vi.pos ∧
    ((enrich_with_vep vi vep_info).2).ref = vi.ref ∧
    ((enrich_with_vep vi vep_info).2).alt = vi.alt := by
  cases vep_info with
  | none => exact ⟨rfl, rfl, rfl, rfl⟩
  | some v => simp [enrich_with_vep_some_eq]

/-- Counterexample to claim C6 as stated: `ensembl_transcript` is already
set (truthy) before the call, yet `enrich_with_vep` replaces it with the
annotation's value, so the transcript-id fields do not follow the
fill-if-absent policy. -/
theorem enrich_transcript_overwrite_cex :
    truthy ({ chrom := "17", pos := 10, ref := "A", alt := "C",
              ensembl_transcript := some "ENST00000357654" } : VariantInfo).ensembl_transcript
      = true ∧
    ((enrich_with_vep
        { chrom := "17", pos := 10, ref := "A", alt := "C",
          ensembl_transcript := some "ENST00000357654" }
        (some { ensembl_transcript := some "ENST00000471181" })).2).ensembl_transcript
      = some "ENST00000471181" := by
  decide

/-- Claim C6 (amended): `enrich_with_vep` applies fill-if-absent only to
`rsid` and `gene_symbol` (a truthy value is never overwritten; a falsy one
is filled when the annotation's value is truthy), and an always-overwrite
policy to `hgvsc`, `hgvsp`, `ensembl_transcript` and `mane_transcript` (a
truthy annotation value always replaces the field; a falsy one leaves it
unchanged). -/
theorem enrich_field_policies (vi : VariantInfo) (v : VepInfo) :
    (truthy vi.rsid = true → ((enrich_with_vep vi (some v)).2).rsid = vi.rsid) ∧
    (truthy vi.rsid = false → truthy v.rsid = true →
      ((enrich_with_vep vi (some v)).2).rsid = v.rsid) ∧
    (truthy v.rsid = false → ((enrich_with_vep vi (some v)).2).rsid = vi.rsid) ∧
    (truthy vi.gene_symbol = true →
      ((enrich_with_vep vi (some v)).2).gene_symbol = vi.gene_symbol) ∧
    (truthy vi.gene_symbol = false → truthy v.gene_symbol = true →
      ((enrich_with_vep vi (some v)).2).gene_symbol = v.gene_symbol) ∧
    (truthy v.gene_symbol = false →
      ((enrich_with_vep vi (some v)).2).gene_symbol = vi.gene_symbol) ∧
    (truthy v.hgvsc = true → ((enrich_with_vep vi (some v)).2).hgvsc = v.hgvsc) ∧
    (truthy v.hgvsc = false → ((enrich_with_vep vi (some v)).2).hgvsc = vi.hgvsc) ∧
    (truthy v.hgvsp = true → ((enrich_with_vep vi (some v)).2).hgvsp = v.hgvsp) ∧
    (truthy v.hgvsp = false → ((enrich_with_vep vi (some v)).2).hgvsp = vi.hgvsp) ∧
    (truthy v.ensembl_transcript = true →
      ((enrich_with_vep vi (some v)).2).ensembl_transcript = v.ensembl_transcript) ∧
    (truthy v.ensembl_transcript = false →
      ((enrich_with_vep vi (some v)).2).ensembl_transcript = vi.ensembl_transcript) ∧
    (truthy v.mane_transcript = true →
      ((enrich_with_vep vi (some v)).2).mane_transcript = v.mane_transcript) ∧
    (truthy v.mane_transcript = false →
      ((enrich_with_vep vi (some v)).2).mane_transcript = vi.mane_transcript) := by
  refine ⟨?_, ?_, ?_, ?_, ?_, ?_, ?_, ?_, ?_, ?_, ?_, ?_, ?_, ?_⟩ <;>
    first
      | (intro h1 h2
         simp [enrich_with_vep_some_eq, h1, h2])
      | (intro h1
         simp [enrich_with_vep_some_eq, h1])

/-- Witness for C6 (amended): on a concrete identity with a set `rsid` and
an annotation supplying `rsid` and `hgvsc`, the set `rsid` survives and the
`hgvsc` is overwritten. -/
theorem enrich_field_policies_witness :
    ((enrich_with_vep
        { chrom := "17", pos := 10, ref := "A", alt := "C",
          rsid := some "rs80357064", hgvsc := some "c.1A>G" }
        (some { rsid := some "rs999", hgvsc := some "c.68_69del" })).2).rsid
      = some "rs80357064" ∧
    ((enrich_with_vep
        { chrom := "17", pos := 10, ref := "A", alt := "C",
          rsid := some "rs80357064", hgvsc := some "c.1A>G" }
        (some { rsid := some "rs999", hgvsc := some "c.68_69del" })).2).hgvsc
      = some "c.68_69del" := by
  refine ⟨(enrich_field_policies _ _).1 (by decide), ?_⟩
  exact (enrich_field_policies
    { chrom := "17", pos := 10, ref := "A", alt := "C",
      rsid := some "rs80357064", hgvsc := some "c.1A>G" }
    { rsid := some "rs999", hgvsc := some "c.68_69del" }).2.2.2.2.2.2.1 (by decide)

/-- Counterexample to claim C7 as stated: at a concrete identity and a
truthy annotation, the Python function returns no identity value (its
return value is `None`) and the argument's post-state differs from its
pre-state, so the operation is not a side-effect-free function returning a
new value. -/
theorem enrich_not_side_effect_free_cex :
    (enrich_with_vep { chrom := "17", pos := 10, ref := "A", alt := "C" }
        (some { rsid := some "rs80357064" })).1 = none ∧
    (enrich_with_vep { chrom := "17", pos := 10, ref := "A", alt := "C" }
        (some { rsid := some "rs80357064" })).2 ≠
      { chrom := "17", pos := 10, ref := "A", alt := "C" } := by
  decide

/-- Claim C7 (amended): `enrich_with_vep` updates the identity in place and
always returns `None`; when the annotation is absent or empty (falsy), and
likewise when it carries no truthy value, the identity's post-state equals
its input. -/
theorem enrich_noop_on_empty (vi : VariantInfo) :
    (enrich_with_vep vi none).2 = vi ∧
    (enrich_with_vep vi (some {})).2 = vi ∧
    ∀ vep_info : Option VepInfo, (enrich_with_vep vi vep_info).1 = none := by
  refine ⟨rfl, rfl, ?_⟩
  intro vep_info
  cases vep_info <;> rfl

/-- The decision/strength pair always takes one of five values. -/
theorem decision_strength_cases (p b : List FunctionalExperiment) :
    decision_strength p b = ("PS3", some "strong") ∨
    decision_strength p b = ("BS3", some "strong") ∨
    decision_strength p b = ("PS3", some "supporting") ∨
    decision_strength p b = ("BS3", some "supporting") ∨
    decision_strength p b = ("none", none) := by
  unfold decision_strength
  split_ifs <;> simp

/-- The length of a space-join is at least the length of its last element. -/
theorem join_space_length_ge (q : List String) (s : String) :
    s.length ≤ (join_space (q ++ [s])).length := by
  induction q with
  | nil => simp [join_space]
  | cons a q ih =>
    cases q with
    | nil => simp [join_space, String.length_append]
    | cons b t =>
      show s.length ≤ (a ++ " " ++ join_space ((b :: t) ++ [s])).length
      rw [String.length_append, String.length_append]
      omega

/-- A string of positive length is not empty. -/
theorem ne_empty_of_length_pos (s : String) (h : 0 < s.length) : s ≠ "" := by
  intro h0
  rw [h0] at h
  simp at h

/-- A double append whose left part is non-empty has positive length. -/
theorem append3_length_pos (a b c : String) (h : 0 < a.length) :
    0 < (a ++ b ++ c).length := by
  rw [String.length_append, String.length_append]
  omega

/-- A space-join ending in a non-empty string is non-empty. -/
theorem join_space_append_ne_empty (q : List String) (s : String) (hs : 0 < s.length) :
    join_space (q ++ [s]) ≠ "" := by
  apply ne_empty_of_length_pos
  exact Nat.lt_of_lt_of_le hs (join_space_length_ge q s)

set_option maxRecDepth 4000 in
/-- The assembled narrative is never the empty string: the empty-input case
emits the fixed sentence, and every other case ends with a non-empty
closing clause. -/
theorem build_narrative_ne_empty (exps : List FunctionalExperiment)
    (d : String) (s : Option String) : build_narrative exps d s ≠ "" := by
  unfold build_narrative
  split
  · decide
  · apply join_space_append_ne_empty
    split_ifs
    · exact append3_length_pos _ _ _ (by decide)
    · exact append3_length_pos _ _ _ (by decide)
    · decide

/-- Permuted lists are empty together. -/
theorem perm_eq_nil_iff {α : Type} {l l' : List α} (h : List.Perm l l') :
    (l = []) ↔ (l' = []) := by
  rw [← List.length_eq_zero, ← List.length_eq_zero, h.length_eq]

/-- Claim C1: the decision and strength returned by `integrate_evidence`
follow the spec's precedence order, first match wins, over the
high-quality pathogenic and benign partitions: two distinct PMIDs of
unopposed high-quality pathogenic evidence give PS3/strong; else two
distinct PMIDs of unopposed high-quality benign evidence give BS3/strong;
else unopposed non-empty high-quality pathogenic evidence gives
PS3/supporting; else unopposed non-empty high-quality benign evidence
gives BS3/supporting; otherwise the decision is "none" with no strength. -/
theorem integrate_evidence_decision_precedence (exps : List FunctionalExperiment) :
    (2 ≤ distinct_pmids (high_quality (pathogenic_support exps)) ∧
        high_quality (benign_support exps) = [] →
      (integrate_evidence exps).decision = "PS3" ∧
        (integrate_evidence exps).strength = some "strong") ∧
    (¬(2 ≤ distinct_pmids (high_quality (pathogenic_support exps)) ∧
        high_quality (benign_support exps) = []) →
      2 ≤ distinct_pmids (high_quality (benign_support exps)) ∧
        high_quality (pathogenic_support exps) = [] →
      (integrate_evidence exps).decision = "BS3" ∧
        (integrate_evidence exps).strength = some "strong") ∧
    (¬(2 ≤ distinct_pmids (high_quality (pathogenic_support exps)) ∧
        high_quality (benign_support exps) = []) →
      ¬(2 ≤ distinct_pmids (high_quality (benign_support exps)) ∧
        high_quality (pathogenic_support exps) = []) →
      high_quality (pathogenic_support exps) ≠ [] ∧
        high_quality (benign_support exps) = [] →
      (integrate_evidence exps).decision = "PS3" ∧
        (integrate_evidence exps).strength = some "supporting") ∧
    (¬(2 ≤ distinct_pmids (high_quality (pathogenic_support exps)) ∧
        high_quality (benign_support exps) = []) →
      ¬(2 ≤ distinct_pmids (high_quality (benign_support exps)) ∧
        high_quality (pathogenic_support exps) = []) →
      ¬(high_quality (pathogenic_support exps) ≠ [] ∧
        high_quality (benign_support exps) = []) →
      high_quality (benign_support exps) ≠ [] ∧
        high_quality (pathogenic_support exps) = [] →
      (integrate_evidence exps).decision = "BS3" ∧
        (integrate_evidence exps).strength = some "supporting") ∧
    (¬(2 ≤ distinct_pmids (high_quality (pathogenic_support exps)) ∧
        high_quality (benign_support exps) = []) →
      ¬(2 ≤ distinct_pmids (high_quality (benign_support exps)) ∧
        high_quality (pathogenic_support exps) = []) →
      ¬(high_quality (pathogenic_support exps) ≠ [] ∧
        high_quality (benign_support exps) = []) →
      ¬(high_quality (benign_support exps) ≠ [] ∧
        high_quality (pathogenic_support exps) = []) →
      (integrate_evidence exps).decision = "none" ∧
        (integrate_evidence exps).strength = none) := by
  have hd : (integrate_evidence exps).decision =
      (decision_strength (high_quality (pathogenic_support exps))
        (high_quality (benign_support exps))).1 := rfl
  have hs : (integrate_evidence exps).strength =
      (decision_strength (high_quality (pathogenic_support exps))
        (high_quality (benign_support exps))).2 := rfl
  rw [hd, hs]
  unfold decision_strength
  refine ⟨?_, ?_, ?_, ?_, ?_⟩
  · intro h1
    rw [if_pos h1]
    exact ⟨rfl, rfl⟩
  · intro h1 h2
    rw [if_neg h1, if_pos h2]
    exact ⟨rfl, rfl⟩
  · intro h1 h2 h3
    rw [if_neg h1, if_neg h2, if_pos h3]
    exact ⟨rfl, rfl⟩
  · intro h1 h2 h3 h4
    rw [if_neg h1, if_neg h2, if_neg h3, if_pos h4]
    exact ⟨rfl, rfl⟩
  · intro h1 h2 h3 h4
    rw [if_neg h1, if_neg h2, if_neg h3, if_neg h4]
    exact ⟨rfl, rfl⟩

/-- Witness for C1: two distinct-PMID high-quality pathogenic experiments
and no benign evidence give PS3/strong. -/
theorem integrate_evidence_decision_precedence_witness :
    (integrate_evidence [expPathA, expPathB]).decision = "PS3" ∧
      (integrate_evidence [expPathA, expPathB]).strength = some "strong" :=
  (integrate_evidence_decision_precedence [expPathA, expPathB]).1 (by decide)

/-- Claim C3: `key_pmids` of the returned assessment is the ascending-sorted
list of the distinct PMIDs of every input experiment (whatever its
evaluation), with no duplicates, independent of the decision branch. -/
theorem integrate_evidence_key_pmids_spec (exps : List FunctionalExperiment) :
    ∃ l : List String, (integrate_evidence exps).key_pmids = some l ∧
      l.Sorted (fun a b => a ≤ b) ∧ l.Nodup ∧
      (∀ s : String, s ∈ l ↔ ∃ e, e ∈ exps ∧ e.pmid = s) := by
  have hk : (integrate_evidence exps).key_pmids =
      some (((exps.map (fun e => e.pmid)).dedup).insertionSort (fun a b => a ≤ b)) := rfl
  refine ⟨((exps.map (fun e => e.pmid)).dedup).insertionSort (fun a b => a ≤ b),
    hk, List.sorted_insertionSort _ _, ?_, ?_⟩
  · exact ((List.perm_insertionSort _ _).nodup_iff).mpr (List.nodup_dedup _)
  · intro s
    rw [List.mem_insertionSort, List.mem_dedup, List.mem_map]

/-- Permutation invariance of the distinct-PMID count. -/
theorem distinct_pmids_perm {p q : List FunctionalExperiment} (h : List.Perm p q) :
    distinct_pmids p = distinct_pmids q := by
  unfold distinct_pmids
  exact ((h.map (fun e => e.pmid)).dedup).length_eq

/-- The pathogenic partition of a permuted list is a permutation. -/
theorem pathogenic_support_perm {l l' : List FunctionalExperiment}
    (h : List.Perm l l') :
    List.Perm (pathogenic_support l) (pathogenic_support l') := by
  unfold pathogenic_support
  exact h.filter _

/-- The benign partition of a permuted list is a permutation. -/
theorem benign_support_perm {l l' : List FunctionalExperiment}
    (h : List.Perm l l') :
    List.Perm (benign_support l) (benign_support l') := by
  unfold benign_support
  exact h.filter _

/-- The quality filter of a permuted list is a permutation. -/
theorem high_quality_perm {l l' : List FunctionalExperiment}
    (h : List.Perm l l') :
    List.Perm (high_quality l) (high_quality l') := by
  unfold high_quality
  exact h.filter _

/-- The decision/strength pair only depends on its inputs up to
permutation. -/
theorem decision_strength_congr {p p' b b' : List FunctionalExperiment}
    (hp : List.Perm p p') (hb : List.Perm b b') :
    decision_strength p b = decision_strength p' b' := by
  have h1 := distinct_pmids_perm hp
  have h2 := distinct_pmids_perm hb
  have h3 := perm_eq_nil_iff hp
  have h4 := perm_eq_nil_iff hb
  unfold decision_strength
  simp only [ne_eq, h1, h2, h3, h4]

/-- The narrative only depends on the experiment list up to permutation. -/
theorem build_narrative_congr {l l' : List FunctionalExperiment}
    (h : List.Perm l l') (d : String) (s : Option String) :
    build_narrative l d s = build_narrative l' d s := by
  have h0 := perm_eq_nil_iff h
  have hp := pathogenic_support_perm h
  have hb := benign_support_perm h
  have e1 : (pathogenic_support l).length = (pathogenic_support l').length :=
    hp.length_eq
  have e2 := distinct_pmids_perm hp
  have e3 := perm_eq_nil_iff hp
  have e4 : (benign_support l).length = (benign_support l').length := hb.length_eq
  have e5 := distinct_pmids_perm hb
  have e6 := perm_eq_nil_iff hb
  unfold build_narrative
  simp only [ne_eq, h0, e1, e2, e3, e4, e5, e6]

/-- The sorted deduplicated PMID list only depends on the experiment list up
to permutation. -/
theorem sorted_pmids_perm_eq {l l' : List FunctionalExperiment}
    (h : List.Perm l l') :
    ((l.map (fun e => e.pmid)).dedup).insertionSort (fun a b => a ≤ b) =
      ((l'.map (fun e => e.pmid)).dedup).insertionSort (fun a b => a ≤ b) :=
  List.eq_of_perm_of_sorted
    ((List.perm_insertionSort _ _).trans (((h.map _).dedup).trans
      (List.perm_insertionSort _ _).symm))
    (List.sorted_insertionSort _ _) (List.sorted_insertionSort _ _)

/-- Claim C4: `integrate_evidence` is invariant under permutation of its
input list: every field of the returned assessment (decision, strength,
narrative, key_pmids) is the same. -/
theorem integrate_evidence_perm_invariant (l l' : List FunctionalExperiment)
    (h : List.Perm l l') : integrate_evidence l = integrate_evidence l' := by
  have hds : decision_strength (high_quality (pathogenic_support l))
        (high_quality (benign_support l)) =
      decision_strength (high_quality (pathogenic_support l'))
        (high_quality (benign_support l')) :=
    decision_strength_congr (high_quality_perm (pathogenic_support_perm h))
      (high_quality_perm (benign_support_perm h))
  apply IntegratedAssessment.ext
  · show (decision_strength (high_quality (pathogenic_support l))
        (high_quality (benign_support l))).1 =
      (decision_strength (high_quality (pathogenic_support l'))
        (high_quality (benign_support l'))).1
    rw [hds]
  · show build_narrative l
        (decision_strength (high_quality (pathogenic_support l))
          (high_quality (benign_support l))).1
        (decision_strength (high_quality (pathogenic_support l))
          (high_quality (benign_support l))).2 =
      build_narrative l'
        (decision_strength (high_quality (pathogenic_support l'))
          (high_quality (benign_support l'))).1
        (decision_strength (high_quality (pathogenic_support l'))
          (high_quality (benign_support l'))).2
    rw [hds]
    exact build_narrative_congr h _ _
  · show (decision_strength (high_quality (pathogenic_support l))
        (high_quality (benign_support l))).2 =
      (decision_strength (high_quality (pathogenic_support l'))
        (high_quality (benign_support l'))).2
    rw [hds]
  · show some (((l.map (fun e => e.pmid)).dedup).insertionSort (fun a b => a ≤ b)) =
      some (((l'.map (fun e => e.pmid)).dedup).insertionSort (fun a b => a ≤ b))
    exact congrArg some (sorted_pmids_perm_eq h)

/-- Witness for C4: swapping a pathogenic and a benign experiment leaves the
assessment unchanged. -/
theorem integrate_evidence_perm_invariant_witness :
    integrate_evidence [expPathA, expBenignC] =
      integrate_evidence [expBenignC, expPathA] :=
  integrate_evidence_perm_invariant _ _ (List.Perm.swap expBenignC expPathA [])

/-- Claim C10: every assessment returned by `integrate_evidence` has a
decision among PS3, BS3, "none"; a strength among "strong" and
"supporting" exactly when the decision is PS3 or BS3 and no strength
exactly when the decision is "none"; and a non-empty narrative. -/
theorem integrate_evidence_output_invariant (exps : List FunctionalExperiment) :
    ((integrate_evidence exps).decision = "PS3" ∨
      (integrate_evidence exps).decision = "BS3" ∨
      (integrate_evidence exps).decision = "none") ∧
    ((integrate_evidence exps).strength = none ∨
      (integrate_evidence exps).strength = some "strong" ∨
      (integrate_evidence exps).strength = some "supporting") ∧
    ((integrate_evidence exps).strength.isSome = true ↔
      ((integrate_evidence exps).decision = "PS3" ∨
        (integrate_evidence exps).decision = "BS3")) ∧
    ((integrate_evidence exps).strength = none ↔
      (integrate_evidence exps).decision = "none") ∧
    (integrate_evidence exps).narrative ≠ "" := by
  have hd : (integrate_evidence exps).decision =
      (decision_strength (high_quality (pathogenic_support exps))
        (high_quality (benign_support exps))).1 := rfl
  have hs : (integrate_evidence exps).strength =
      (decision_strength (high_quality (pathogenic_support exps))
        (high_quality (benign_support exps))).2 := rfl
  have hn : (integrate_evidence exps).narrative =
      build_narrative exps
        (decision_strength (high_quality (pathogenic_support exps))
          (high_quality (benign_support exps))).1
        (decision_strength (high_quality (pathogenic_support exps))
          (high_quality (benign_support exps))).2 := rfl
  rw [hd, hs, hn]
  refine ⟨?_, ?_, ?_, ?_, build_narrative_ne_empty _ _ _⟩ <;>
    rcases decision_strength_cases (high_quality (pathogenic_support exps))
        (high_quality (benign_support exps)) with h | h | h | h | h <;>
      rw [h] <;> decide

/-- The genomic search string always has positive length (it contains at
least the `:` separator). -/
theorem genomic_str_length_pos (vi : VariantInfo) : 0 < (genomic_str vi).length := by
  unfold genomic_str
  rw [String.length_append, String.length_append, String.length_append,
    String.length_append, String.length_append]
  have h1 : (":").length = 1 := rfl
  omega

/-- A gene-symbol combination string always has positive length (it contains
at least the blank separator). -/
theorem space_join_length_pos (a b : String) : 0 < (a ++ " " ++ b).length := by
  rw [String.length_append, String.length_append]
  have h1 : (" ").length = 1 := rfl
  omega

/-- Membership in a conditionally-included singleton list. -/
theorem mem_ite_singleton {α : Type} (c : Prop) [Decidable c] (x y : α) :
    (y ∈ if c then [x] else []) ↔ (c ∧ y = x) := by
  split <;> simp [*]

/-- A non-empty string wrapped in `some` is truthy. -/
theorem truthy_some_ne (s : String) (h : ¬s = "") : truthy (some s) = true := by
  simp [truthy, h]

/-- A truthy `some` value holds a non-empty string. -/
theorem ne_of_truthy_some (s : String) (h : truthy (some s) = true) : ¬s = "" := by
  simpa [truthy] using h

/-- Exact membership characterization of the search-identifier set: a string
is produced by `search_strings` iff it is the genomic string, a truthy
`rsid`/`hgvsc`/`hgvsp` value, or a `gene_symbol`-prefixed `hgvsp`/`hgvsc`
combination with both parts truthy. -/
theorem mem_search_strings (vi : VariantInfo) (s : String) :
    s ∈ vi.search_strings ↔
      (s = genomic_str vi ∨
       (truthy vi.rsid = true ∧ vi.rsid = some s) ∨
       (truthy vi.hgvsc = true ∧ vi.hgvsc = some s) ∨
       (truthy vi.hgvsp = true ∧ vi.hgvsp = some s) ∨
       (truthy vi.gene_symbol = true ∧ truthy vi.hgvsp = true ∧
         s = vi.gene_symbol.getD "" ++ " " ++ vi.hgvsp.getD "") ∨
       (truthy vi.gene_symbol = true ∧ truthy vi.hgvsc = true ∧
         s = vi.gene_symbol.getD "" ++ " " ++ vi.hgvsc.getD "")) := by
  have hmem : s ∈ vi.search_strings ↔
      ((some s = some (genomic_str vi) ∨ some s = vi.rsid ∨ some s = vi.hgvsc ∨
          some s = vi.hgvsp ∨
          ((truthy vi.gene_symbol && truthy vi.hgvsp) = true ∧
            some s = some (vi.gene_symbol.getD "" ++ " " ++ vi.hgvsp.getD "")) ∨
          ((truthy vi.gene_symbol && truthy vi.hgvsc) = true ∧
            some s = some (vi.gene_symbol.getD "" ++ " " ++ vi.hgvsc.getD ""))) ∧
        ¬s = "") := by
    unfold VariantInfo.search_strings
    rw [List.mem_insertionSort, List.mem_dedup, List.mem_filter]
    simp only [List.mem_filterMap, id_eq, exists_eq_right, List.mem_append,
      List.mem_cons, List.not_mem_nil, or_false, bne_iff_ne, ne_eq,
      mem_ite_singleton, or_assoc]
  rw [hmem]
  constructor
  · rintro ⟨h | h | h | h | ⟨hc, h⟩ | ⟨hc, h⟩, hne⟩
    · exact Or.inl (Option.some.inj h)
    · refine Or.inr (Or.inl ⟨?_, h.symm⟩)
      rw [← h]
      exact truthy_some_ne s hne
    · refine Or.inr (Or.inr (Or.inl ⟨?_, h.symm⟩))
      rw [← h]
      exact truthy_some_ne s hne
    · refine Or.inr (Or.inr (Or.inr (Or.inl ⟨?_, h.symm⟩)))
      rw [← h]
      exact truthy_some_ne s hne
    · rw [Bool.and_eq_true] at hc
      exact Or.inr (Or.inr (Or.inr (Or.inr (Or.inl ⟨hc.1, hc.2, Option.some.inj h⟩))))
    · rw [Bool.and_eq_true] at hc
      exact Or.inr (Or.inr (Or.inr (Or.inr (Or.inr ⟨hc.1, hc.2, Option.some.inj h⟩))))
  · rintro (h | ⟨ht, he⟩ | ⟨ht, he⟩ | ⟨ht, he⟩ | ⟨h1, h2, h⟩ | ⟨h1, h2, h⟩)
    · subst h
      exact ⟨Or.inl rfl, ne_empty_of_length_pos _ (genomic_str_length_pos vi)⟩
    · rw [he] at ht
      exact ⟨Or.inr (Or.inl he.symm), ne_of_truthy_some s ht⟩
    · rw [he] at ht
      exact ⟨Or.inr (Or.inr (Or.inl he.symm)), ne_of_truthy_some s ht⟩
    · rw [he] at ht
      exact ⟨Or.inr (Or.inr (Or.inr (Or.inl he.symm))), ne_of_truthy_some s ht⟩
    · subst h
      refine ⟨Or.inr (Or.inr (Or.inr (Or.inr (Or.inl ⟨?_, rfl⟩)))), ?_⟩
      · rw [Bool.and_eq_true]
        exact ⟨h1, h2⟩
      · exact ne_empty_of_length_pos _ (space_join_length_pos _ _)
    · subst h
      refine ⟨Or.inr (Or.inr (Or.inr (Or.inr (Or.inr ⟨?_, rfl⟩)))), ?_⟩
      · rw [Bool.and_eq_true]
        exact ⟨h1, h2⟩
      · exact ne_empty_of_length_pos _ (space_join_length_pos _ _)

/-- Claim C5: `search_strings` returns exactly the genomic-notation string
plus each present-and-non-empty (truthy) identifier and gene-symbol
combination, deduplicated, sorted lexicographically, and never empty.
Determinism and idempotence on identical input hold definitionally, since
the embedding is a pure function of the identity. -/
theorem search_strings_spec (vi : VariantInfo) :
    vi.search_strings ≠ [] ∧
    vi.search_strings.Nodup ∧
    vi.search_strings.Sorted (fun a b => a ≤ b) ∧
    genomic_str vi ∈ vi.search_strings ∧
    (∀ s : String, s ∈ vi.search_strings ↔
      (s = genomic_str vi ∨
       (truthy vi.rsid = true ∧ vi.rsid = some s) ∨
       (truthy vi.hgvsc = true ∧ vi.hgvsc = some s) ∨
       (truthy vi.hgvsp = true ∧ vi.hgvsp = some s) ∨
       (truthy vi.gene_symbol = true ∧ truthy vi.hgvsp = true ∧
         s = vi.gene_symbol.getD "" ++ " " ++ vi.hgvsp.getD "") ∨
       (truthy vi.gene_symbol = true ∧ truthy vi.hgvsc = true ∧
         s = vi.gene_symbol.getD "" ++ " " ++ vi.hgvsc.getD ""))) := by
  have hg : genomic_str vi ∈ vi.search_strings :=
    (mem_search_strings vi (genomic_str vi)).mpr (Or.inl rfl)
  refine ⟨List.ne_nil_of_mem hg, ?_, ?_, hg, mem_search_strings vi⟩
  · exact ((List.perm_insertionSort _ _).nodup_iff).mpr (List.nodup_dedup _)
  · exact List.sorted_insertionSort _ _
